import Mathlib

/-!
Shallow embedding of the DOM-mutation reconciliation engine (`DOMObserver`)
and of the key-binding compilation module of the `view` repository.

DOM nodes and view descriptors are identified by natural numbers.  The
surrounding browser environment (DOM tree shape, the view-tree lookup
service `nearest`, position queries, platform feature flags) is a record of
functions `Env`, fixed for the lifetime of one observer.  The mutable state
of a `DOMObserver` instance is `ObsState`; callback invocations
(`onDOMChange`, `onSelectionChange`, `onIntersect`, `docView.sync`) are
recorded as an `Event` list returned by each operation.
-/

namespace DOMObs

/-- Values of `MutationRecord.type` used used by the observer. -/
inductive MType where
  | childList
  | characterData
deriving DecidableEq

/-- A platform mutation record (the fields `applyMutations`/`readMutation`
consult).  For the legacy char-data path, records are synthesized with
`type = characterData` and no siblings. -/
structure MutationRecord where
  target : Nat
  type : MType
  previousSibling : Option Nat
  nextSibling : Option Nat
  oldValue : Option String
deriving DecidableEq

/-- A document-coordinate dirty range, the `{from, to}` objects returned by
`readMutation` (`from`/`to` are Lean keywords, hence the underscores). -/
structure DirtyRange where
  from_ : Int
  to_ : Int
deriving DecidableEq

/-- Observable callback invocations of the engine. -/
inductive Event where
  | domChange (from_ to_ : Int)
  | selChange
  | intersect
  | sync
deriving DecidableEq

def isDOMChange : Event → Bool
  | .domChange _ _ => true
  | _ => false

def isSelChange : Event → Bool
  | .selChange => true
  | _ => false

/-- The fixed environment of one observer: the rendered DOM tree, the
view-tree lookup service consumed from `viewdesc`, and platform flags.
`fuel` bounds the (finite, acyclic in reality) DOM walk of `findChild`. -/
structure Env where
  /-- Browser `node.parentNode` -/
  parentNode : Nat → Option Nat
  /-- Browser `node.nextSibling` -/
  nextSibling : Nat → Option Nat
  /-- Browser `node.previousSibling` -/
  previousSibling : Nat → Option Nat
  /-- Browser `node.cmView`: back-reference from a DOM node to its descriptor -/
  cmView : Nat → Option Nat
  /-- View-tree `desc.parent` -/
  descParent : Nat → Option Nat
  /-- View-tree `desc.dom` -/
  descDom : Nat → Nat
  /-- View-tree `desc.posAfter(child)` -/
  posAfter : Nat → Nat → Int
  /-- View-tree `desc.posBefore(child)` -/
  posBefore : Nat → Nat → Int
  /-- View-tree `desc.posAtStart` -/
  posAtStart : Nat → Int
  /-- View-tree `desc.posAtEnd` -/
  posAtEnd : Nat → Int
  /-- Lookup `docView.nearest(node)` -/
  nearest : Nat → Option Nat
  /-- Flag `typeof MutationObserver != "undefined"` -/
  hasObserver : Bool
  /-- Flag `useCharData` (`browser.ie && browser.ie_version <= 11`) -/
  useCharData : Bool
  /-- Whether `getRoot(this.dom).activeElement == this.dom` -/
  rootActiveElement : Bool
  /-- Whether `hasSelection(this.dom)` -/
  hasSelection : Bool
  /-- bound on the `findChild` DOM walk -/
  fuel : Nat

/-- The mutable state of one `DOMObserver` instance, including which
listeners/observers are currently registered and the platform-side buffer of
batched mutation records (drained by `observer.takeRecords()`). -/
structure ObsState where
  active : Bool
  /-- mutation observer registered via `observer.observe(dom, options)` -/
  observing : Bool
  /-- records batched by the platform, pending `takeRecords`/callback delivery -/
  observerBuffer : List MutationRecord
  /-- Whether the `DOMCharacterDataModified` listener is registered -/
  charListening : Bool
  charDataQueue : List MutationRecord
  /-- Whether `charDataTimeout != null`: the 20-unit debounce timer is pending -/
  charDataTimeout : Bool
  /-- the `selectionchange` listener is registered (`listening` local) -/
  selListening : Bool
  /-- the focus/blur listeners added by `listenForSelectionChanges` -/
  focusListeners : Bool
  /-- elements observed by the intersection observer -/
  intersectionTargets : List Nat
  /-- pending intersection records (dumped by `start`) -/
  intersectionBuffer : List Nat
  /-- Source `docView.dirty` -/
  docViewDirty : Bool
deriving DecidableEq

/-- The sibling-walk step of `findChild`:
`dom = parent != desc.dom ? parent : dir > 0 ? dom.nextSibling : dom.previousSibling`. -/
def nextDom (env : Env) (desc dom : Nat) (dir : Int) : Option Nat :=
  let parent := env.parentNode dom
  if parent ≠ some (env.descDom desc) then parent
  else if dir > 0 then env.nextSibling dom else env.previousSibling dom

/-- Source `findChild(desc, dom, dir)`: walk from a candidate DOM node until a node
whose descriptor is a direct child of `desc` is found.  `fuel` bounds the
walk (the real DOM is finite and acyclic). -/
def findChild (env : Env) (desc : Nat) : Option Nat → Int → Nat → Option Nat
  | _, _, 0 => none
  | none, _, _ => none
  | some dom, dir, fuel + 1 =>
    match env.cmView dom with
    | some curDesc =>
      if env.descParent curDesc = some desc then some curDesc
      else findChild env desc (nextDom env desc dom dir) dir fuel
    | none => findChild env desc (nextDom env desc dom dir) dir fuel

/-- Source `readMutation(rec)`: resolve one record to a dirty range, or `none`
when the target has no tracked descriptor.  The `desc.markDirty()` side
effect is accounted for separately in `applyMutations` (a record marks a
descriptor dirty exactly when `nearest` succeeds on its target). -/
def readMutation (env : Env) (record : MutationRecord) : Option DirtyRange :=
  match env.nearest record.target with
  | none => none
  | some desc =>
    match record.type with
    | MType.childList =>
      let childBefore := findChild env desc
        (record.previousSibling.orElse fun _ => env.previousSibling record.target) (-1) env.fuel
      let childAfter := findChild env desc
        (record.nextSibling.orElse fun _ => env.nextSibling record.target) 1 env.fuel
      some { from_ := match childBefore with
                      | some c => env.posAfter desc c
                      | none => env.posAtStart desc,
             to_ := match childAfter with
                    | some c => env.posBefore desc c
                    | none => env.posAtEnd desc }
    | MType.characterData =>
      some { from_ := env.posAtStart desc, to_ := env.posAtEnd desc }

/-- One iteration of the merging loop in `applyMutations`:
`if (from == -1) ({from, to} = range) else { from = min(range.from, from); to = max(range.to, to) }`. -/
def mergeStep (acc : Int × Int) (r : DirtyRange) : Int × Int :=
  if acc.1 = -1 then (r.from_, r.to_)
  else (min r.from_ acc.1, max r.to_ acc.2)

/-- The whole merging loop, started from the sentinel `from = -1, to = -1`. -/
def mergeRanges (rs : List DirtyRange) : Int × Int :=
  rs.foldl mergeStep (-1, -1)

/-- Source `records.concat(this.charDataQueue)`, taken when the legacy queue is non-empty. -/
def combinedRecords (st : ObsState) (records : List MutationRecord) : List MutationRecord :=
  if st.charDataQueue.isEmpty then records else records ++ st.charDataQueue

/-- The state effect of consuming the legacy queue:
`clearTimeout(this.charDataTimeout); this.charDataTimeout = null; this.charDataQueue.length = 0`. -/
def drainQueue (st : ObsState) : ObsState :=
  if st.charDataQueue.isEmpty then st
  else { st with charDataQueue := [], charDataTimeout := false }

/-- The merged `(from, to)` pair the `applyMutations` loop computes over a
record list. -/
def mergedOf (env : Env) (recs : List MutationRecord) : Int × Int :=
  mergeRanges (recs.filterMap (readMutation env))

/-- The accumulated `desc.markDirty()` effect of the loop: some record's
target resolved, so the view tree (up to `docView`) is marked dirty. -/
def markDirtyFor (env : Env) (st : ObsState) (recs : List MutationRecord) : ObsState :=
  if recs.any (fun r => (env.nearest r.target).isSome)
  then { st with docViewDirty := true } else st

/-- Source `if (this.docView.dirty) this.docView.sync()`. -/
def syncIfDirty (st : ObsState) : ObsState × List Event :=
  if st.docViewDirty then ({ st with docViewDirty := false }, [Event.sync])
  else (st, [])

/-- Source `applyMutations(records)`: returns the state, the boolean the method
returns (`apply`), and the callbacks invoked. -/
def applyMutations (env : Env) (st : ObsState) (records : List MutationRecord) :
    ObsState × Bool × List Event :=
  let recs := combinedRecords st records
  let st1 := drainQueue st
  if recs.isEmpty then (st1, false, [])
  else
    let fromTo := mergedOf env recs
    let st2 := markDirtyFor env st1 recs
    let apply := decide (-1 < fromTo.1) && st2.active
    let ev := if apply then [Event.domChange fromTo.1 fromTo.2] else []
    let r := syncIfDirty st2
    (r.1, apply, ev ++ r.2)

/-- Source `flush()`: `applyMutations(this.observer ? this.observer.takeRecords() : [])`.
`takeRecords` drains the platform's batching buffer. -/
def flush (env : Env) (st : ObsState) : ObsState × Bool × List Event :=
  if env.hasObserver then
    applyMutations env { st with observerBuffer := [] } st.observerBuffer
  else
    applyMutations env st []

/-- Source `start()`. -/
def start (env : Env) (st : ObsState) : ObsState :=
  if st.active then st
  else
    let st := if env.hasObserver then { st with observing := true } else st
    let st := if env.useCharData then { st with charListening := true } else st
    let st := { st with intersectionBuffer := [] }
    { st with active := true }

/-- Source `stop()`: note that `active` is set to `false` before `flush()` runs. -/
def stop (env : Env) (st : ObsState) : ObsState × List Event :=
  if !st.active then (st, [])
  else
    let st := { st with active := false }
    let (st, ev) :=
      if env.hasObserver then
        let r := flush env st
        ({ r.1 with observing := false }, r.2.2)
      else (st, [])
    let st := if env.useCharData then { st with charListening := false } else st
    (st, ev)

/-- Source `withoutListening(f)`: `try { this.stop(); f() } finally { this.start() }`.
The action `f` transforms the state and optionally raises (returning the
state at raise time and the exception); the exception is propagated
unchanged after `start()` runs. -/
def withoutListening {ε : Type} (env : Env) (f : ObsState → ObsState × Option ε)
    (st : ObsState) : ObsState × List Event × Option ε :=
  let s1 := stop env st
  let r := f s1.1
  (start env r.1, s1.2, r.2)

/-- The `DOMCharacterDataModified` handler: push a synthesized record and
arm the 20-unit debounce timer if it is not already pending. -/
def onCharData (st : ObsState) (target : Nat) (prevValue : Option String) : ObsState :=
  let st := { st with charDataQueue :=
    st.charDataQueue ++ [⟨target, MType.characterData, none, none, prevValue⟩] }
  if st.charDataTimeout then st else { st with charDataTimeout := true }

/-- Platform behaviour: records produced while the mutation observer is
registered accumulate in its batching buffer. -/
def recordMutations (st : ObsState) (records : List MutationRecord) : ObsState :=
  if st.observing then { st with observerBuffer := st.observerBuffer ++ records }
  else st

/-- Source `readSelection()` (the `selectionchange` handler). -/
def readSelection (env : Env) (st : ObsState) : ObsState × List Event :=
  if !st.active || !env.rootActiveElement || !env.hasSelection then (st, [])
  else
    let r := flush env st
    if r.2.1 then (r.1, r.2.2) else (r.1, r.2.2 ++ [Event.selChange])

/-- The focus handler registered by `listenForSelectionChanges` (fires only
while the focus/blur listeners are attached). -/
def onFocus (env : Env) (st : ObsState) : ObsState × List Event :=
  if !st.focusListeners then (st, [])
  else if st.selListening then (st, [])
  else
    let st := { st with selListening := true }
    if env.hasSelection then readSelection env st else (st, [])

/-- The blur handler registered by `listenForSelectionChanges`. -/
def onBlur (st : ObsState) : ObsState :=
  if !st.focusListeners then st
  else if st.selListening then { st with selListening := false } else st

/-- Source `observeIntersection(dom)`: disconnect the previous set, observe the new one. -/
def observeIntersection (st : ObsState) (doms : List Nat) : ObsState :=
  { st with intersectionTargets := doms }

/-- Source `destroy()`: `this.stop()` followed by removing the `selectionchange`
listener.  Nothing else is unregistered. -/
def destroy (env : Env) (st : ObsState) : ObsState × List Event :=
  let r := stop env st
  ({ r.1 with selListening := false }, r.2)

/-- The field state right after the constructor's field initializers and
`listenForSelectionChanges` ran, before the final `this.start()` call. -/
def initialState : ObsState :=
  { active := false, observing := false, observerBuffer := [],
    charListening := false, charDataQueue := [], charDataTimeout := false,
    selListening := false, focusListeners := true,
    intersectionTargets := [], intersectionBuffer := [], docViewDirty := false }

/-- The constructor: set up fields and listeners, then `this.start()`. -/
def newObserver (env : Env) : ObsState :=
  start env initialState

end DOMObs

namespace KeyDispatch

/-!
Embedding of the key-binding compilation path of `keymap.ts`:
`normalizeKeyName`, `buildKeymap` (with its `checkPrefix` validation), and
the lazy `getKeymap` cache consulted from the `keydown` handler.  JS string
maps (`Object.create(null)`) are modelled as association lists; commands are
opaque tags (`Cmd.user`), with a distinguished constructor for the
synthesized multi-stroke stub commands.
-/

instance {e a : Type} [DecidableEq e] [DecidableEq a] : DecidableEq (Except e a) :=
  fun x y =>
    match x, y with
    | Except.ok u, Except.ok v =>
      if h : u = v then Decidable.isTrue (by rw [h])
      else Decidable.isFalse (by intro hc; cases hc; exact h rfl)
    | Except.error u, Except.error v =>
      if h : u = v then Decidable.isTrue (by rw [h])
      else Decidable.isFalse (by intro hc; cases hc; exact h rfl)
    | Except.ok _, Except.error _ => Decidable.isFalse (by intro hc; cases hc)
    | Except.error _, Except.ok _ => Decidable.isFalse (by intro hc; cases hc)

inductive PlatformName where
  | mac
  | win
  | linux
  | key
deriving DecidableEq

/-- The modifier flags accumulated by `normalizeKeyName`'s loop. -/
structure Mods where
  alt : Bool
  ctrl : Bool
  shift : Bool
  meta : Bool
deriving DecidableEq

/-- A command value: a caller's command, or the stub command that stores the
pending multi-stroke state (`storedPrefix = {view, prefix, scope}`). -/
inductive Cmd where
  | user (n : Nat)
  | setPfx (pfxName : String) (scope : String)
deriving DecidableEq

/-- A compiled binding: `{preventDefault: boolean, commands: Command[]}`. -/
structure Binding where
  preventDefault : Bool
  commands : List Cmd
deriving DecidableEq

/-- Type `{[key: string]: Binding}` as an association list. -/
def ScopeObj : Type := List (String × Binding)

instance : DecidableEq ScopeObj := by
  unfold ScopeObj
  infer_instance

/-- Type `Keymap = {[scope: string]: {[key: string]: Binding}}`. -/
def Keymap : Type := List (String × ScopeObj)

instance : DecidableEq Keymap := by
  unfold Keymap
  infer_instance

def alGet {α : Type} (l : List (String × α)) (k : String) : Option α :=
  match l.find? (fun p => p.1 == k) with
  | some p => some p.2
  | none => none

def alSet {α : Type} : List (String × α) → String → α → List (String × α)
  | [], k, v => [(k, v)]
  | (k', v') :: t, k, v =>
    if k' == k then (k, v) :: t else (k', v') :: alSet t k v

/-- The splitting used for `name.split` (on dash) and `key.split` (on
space): split on `sep` except when it is the final character (the source
uses a negative lookahead so a trailing separator is kept). -/
def splitSepAux (sep : Char) : List Char → List Char → List (List Char)
  | acc, [] => [acc.reverse]
  | acc, c :: rest =>
    if c = sep ∧ rest ≠ [] then acc.reverse :: splitSepAux sep [] rest
    else splitSepAux sep (c :: acc) rest

def splitSep (sep : Char) (s : String) : List String :=
  (splitSepAux sep [] s.data).map fun cs => String.mk cs

/-- ASCII lowercasing (the case-insensitivity of the source's regexes). -/
def lowerStr (s : String) : String :=
  String.mk (s.data.map Char.toLower)

/-- Plain split on a separator character (for `b.scope.split(" ")`). -/
def splitEveryAux (sep : Char) : List Char → List Char → List (List Char)
  | acc, [] => [acc.reverse]
  | acc, c :: rest =>
    if c = sep then acc.reverse :: splitEveryAux sep [] rest
    else splitEveryAux sep (c :: acc) rest

def splitEvery (sep : Char) (s : String) : List String :=
  (splitEveryAux sep [] s.data).map fun cs => String.mk cs

/-- One iteration of `normalizeKeyName`'s modifier loop, matching the
case-insensitive regexes of the source. -/
def addMod (platform : PlatformName) (m : Mods) (mod : String) : Except String Mods :=
  let lower := lowerStr mod
  if lower = "cmd" ∨ lower = "meta" ∨ lower = "m" then .ok { m with meta := true }
  else if lower = "a" ∨ lower = "alt" then .ok { m with alt := true }
  else if lower = "c" ∨ lower = "ctrl" ∨ lower = "control" then .ok { m with ctrl := true }
  else if lower = "s" ∨ lower = "shift" then .ok { m with shift := true }
  else if lower = "mod" then
    .ok (if platform = PlatformName.mac then { m with meta := true } else { m with ctrl := true })
  else .error ("Unrecognized modifier name: " ++ mod)

/-- Source `normalizeKeyName(name, platform)`: throws (here: `Except.error`) on an
unrecognized modifier name. -/
def normalizeKeyName (name : String) (platform : PlatformName) : Except String String := do
  let parts := splitSep '-' name
  let result := parts.getLastD ""
  let result := if result = "Space" then " " else result
  let mods ← parts.dropLast.foldlM (addMod platform) ⟨false, false, false, false⟩
  let result := if mods.alt then "Alt-" ++ result else result
  let result := if mods.ctrl then "Ctrl-" ++ result else result
  let result := if mods.meta then "Meta-" ++ result else result
  let result := if mods.shift then "Shift-" ++ result else result
  .ok result

/-- Input bindings; the key used is `b[platform] || b.key`. -/
structure KeyBinding where
  key : Option String
  mac : Option String
  win : Option String
  linux : Option String
  run : Nat
  shift : Option Nat
  scope : Option String
  preventDefault : Bool
deriving DecidableEq

def platformKey (b : KeyBinding) (p : PlatformName) : Option String :=
  match p with
  | PlatformName.mac => b.mac.orElse fun _ => b.key
  | PlatformName.win => b.win.orElse fun _ => b.key
  | PlatformName.linux => b.linux.orElse fun _ => b.key
  | PlatformName.key => b.key

/-- The mutable state of `buildKeymap`: the keymap under construction and
the `isPrefix` table used by `checkPrefix`. -/
structure BuildState where
  bound : Keymap
  isPfx : List (String × Bool)

/-- Source `checkPrefix(name, is)`: throws (here: `Except.error`) when a key is
used both as a regular binding and as a multi-stroke prefix. -/
def checkPfx (st : BuildState) (name : String) (is : Bool) : Except String BuildState :=
  match alGet st.isPfx name with
  | none => .ok { st with isPfx := alSet st.isPfx name is }
  | some current =>
    if current = is then .ok st
    else .error ("Key binding " ++ name ++
      " is used both as a regular binding and as a multi-stroke prefix")

def joinSpace (parts : List String) : String :=
  String.intercalate " " parts

/-- The body of `add(scope, key, command, preventDefault)` inside
`buildKeymap`. -/
def addBinding (platform : PlatformName) (st : BuildState) (scope key : String)
    (command : Cmd) (pd : Bool) : Except String BuildState := do
  let parts ← (splitSep ' ' key).mapM fun k => normalizeKeyName k platform
  let st ← (List.range' 1 (parts.length - 1)).foldlM (fun st i => do
      let pfxName := joinSpace (parts.take i)
      let st ← checkPfx st pfxName true
      let scopeObj := (alGet st.bound scope).getD []
      match alGet scopeObj pfxName with
      | some _ => pure st
      | none =>
        let entry : Binding := ⟨true, [Cmd.setPfx pfxName scope]⟩
        pure { st with bound := alSet st.bound scope (alSet scopeObj pfxName entry) }) st
  let full := joinSpace parts
  let st ← checkPfx st full false
  let scopeObj := (alGet st.bound scope).getD []
  let binding := (alGet scopeObj full).getD ⟨false, []⟩
  let binding : Binding :=
    ⟨binding.preventDefault || pd, binding.commands ++ [command]⟩
  pure { st with bound := alSet st.bound scope (alSet scopeObj full binding) }

/-- Source `buildKeymap(bindings, platform)`. -/
def buildKeymap (bindings : List KeyBinding) (platform : PlatformName) :
    Except String Keymap := do
  let st ← bindings.foldlM (fun st b =>
      match platformKey b platform with
      | none => pure st
      | some name => do
        let scopes := match b.scope with
                      | some s => splitEvery ' ' s
                      | none => ["editor"]
        scopes.foldlM (fun st scope => do
            let st ← addBinding platform st scope name (Cmd.user b.run) b.preventDefault
            match b.shift with
            | some sh => addBinding platform st scope ("Shift-" ++ name) (Cmd.user sh) b.preventDefault
            | none => pure st) st) (⟨[], []⟩ : BuildState)
  pure st.bound

/-- The `Keymaps` WeakMap entry for one facet value: empty until the first
`getKeymap` call. -/
structure KeymapCache where
  cached : Option Keymap
deriving DecidableEq

/-- Configuring the `keymap` facet: the facet stores the bindings and
enables the `keydown` handler; the `Keymaps` cache starts empty and no
compilation (hence no validation) runs at this point. -/
def setupEditor (bindings : List KeyBinding) : List KeyBinding × KeymapCache :=
  (bindings, ⟨none⟩)

/-- Source `getKeymap(state)`: compile and memoize the keymap on first use.  Its
only callers are the `keydown` handler (`handleKeyEvents`) and
`runScopeHandlers`, i.e. key-event dispatch. -/
def getKeymap (cache : KeymapCache) (bindings : List KeyBinding)
    (platform : PlatformName) : Except String (Keymap × KeymapCache) :=
  match cache.cached with
  | some m => .ok (m, cache)
  | none => do
    let m ← buildKeymap bindings platform
    .ok (m, ⟨some m⟩)

/-- The keymap lookup performed by the first key event after setup. -/
def firstKeyEvent (bindings : List KeyBinding) (platform : PlatformName) :
    Except String Keymap :=
  (getKeymap (setupEditor bindings).2 (setupEditor bindings).1 platform).map fun r => r.1

end KeyDispatch

namespace DOMObs

/-- A featureless browser environment used as the base of the concrete test
environments below. -/
def trivEnv : Env :=
  { parentNode := fun _ => none, nextSibling := fun _ => none,
    previousSibling := fun _ => none, cmView := fun _ => none,
    descParent := fun _ => none, descDom := fun _ => 0,
    posAfter := fun _ _ => 0, posBefore := fun _ _ => 0,
    posAtStart := fun _ => 0, posAtEnd := fun _ => 0,
    nearest := fun _ => none, hasObserver := true, useCharData := false,
    rootActiveElement := true, hasSelection := true, fuel := 10 }

/-- Environment for the drain-on-stop scenario: node 0 is tracked by
descriptor 0 spanning positions 2..7. -/
def envStopDemo : Env :=
  { trivEnv with
    nearest := fun n => if n = 0 then some 0 else none,
    posAtStart := fun _ => 2, posAtEnd := fun _ => 7 }

/-- A pending text-mutation record on node 0. -/
def recStopDemo : MutationRecord :=
  ⟨0, MType.characterData, none, none, none⟩

/-- An active observer with one batched record pending. -/
def stStopDemo : ObsState :=
  { initialState with active := true, observing := true,
                      observerBuffer := [recStopDemo] }

/-- An inactive observer holding a batched record (for the pause claim). -/
def stPausedDemo : ObsState :=
  { initialState with observerBuffer := [recStopDemo] }

/-- A queued legacy char-data record (target untracked). -/
def recQueueDemo : MutationRecord :=
  ⟨3, MType.characterData, none, none, some "x"⟩

/-- An active observer whose legacy queue holds one record with the
debounce timer armed. -/
def stQueueDemo : ObsState :=
  { initialState with active := true, observing := true,
                      charDataQueue := [recQueueDemo], charDataTimeout := true }

/-- Environment for the `[A,B,C]` structural-mutation scenario: descriptor 0
(root, DOM node 10) has tracked children A = 1, B = 2, C = 3 (DOM nodes
11, 12, 13) mapped to positions `[0,5)`, `[5,9)`, `[9,14)`. -/
def envABC : Env :=
  { trivEnv with
    cmView := fun n =>
      if n = 10 then some 0 else if n = 11 then some 1
      else if n = 12 then some 2 else if n = 13 then some 3 else none,
    descParent := fun d =>
      if d = 1 ∨ d = 2 ∨ d = 3 then some 0 else none,
    descDom := fun d =>
      if d = 1 then 11 else if d = 2 then 12 else if d = 3 then 13 else 10,
    posAfter := fun _ c => if c = 1 then 5 else if c = 2 then 9 else 14,
    posBefore := fun _ c => if c = 1 then 0 else if c = 2 then 5 else 9,
    posAtStart := fun _ => 0, posAtEnd := fun _ => 14,
    nearest := fun n => if n = 10 then some 0 else none }

/-- The structural record of the scenario: a removal between A and B with
`previousSibling = A.dom` and `nextSibling = B.dom`. -/
def recABC : MutationRecord :=
  ⟨10, MType.childList, some 11, some 12, none⟩

/-- Environment for the selection-exclusivity demo: active root with focus
and a selection, no pending mutations resolve. -/
def envSelDemo : Env := trivEnv

/-- An active observer with an empty platform buffer. -/
def stSelDemo : ObsState :=
  { initialState with active := true, observing := true }

/-- State for the destroy demo: active observer with the intersection
observer watching element 5. -/
def envDestroyDemo : Env := { trivEnv with hasSelection := false }

def stDestroyDemo : ObsState :=
  { initialState with active := true, observing := true,
                      intersectionTargets := [5] }

/-- Environment for the constructor demo: node 0 tracked by descriptor 0
spanning 0..4. -/
def envCtorDemo : Env :=
  { trivEnv with
    nearest := fun n => if n = 0 then some 0 else none,
    posAtEnd := fun _ => 4 }

def recCtorDemo : MutationRecord :=
  ⟨0, MType.characterData, none, none, none⟩

end DOMObs

namespace KeyDispatch

/-- A binding whose key name uses the unrecognized modifier `Q-`. -/
def badModBinding : KeyBinding :=
  ⟨some "Q-x", none, none, none, 0, none, none, false⟩

/-- Two bindings that use `a` both as a multi-stroke prefix (of `a b`) and
as a regular binding. -/
def conflictBindings : List KeyBinding :=
  [⟨some "a b", none, none, none, 0, none, none, false⟩,
   ⟨some "a", none, none, none, 1, none, none, false⟩]

end KeyDispatch

/-! ## Helper lemmas -/

namespace DOMObs

theorem drainQueue_active (st : ObsState) : (drainQueue st).active = st.active := by
  unfold drainQueue; split <;> rfl

theorem drainQueue_charDataQueue (st : ObsState) : (drainQueue st).charDataQueue = [] := by
  unfold drainQueue; split
  · next h => exact List.isEmpty_iff.mp h
  · rfl

theorem drainQueue_charDataTimeout (st : ObsState) :
    (drainQueue st).charDataTimeout =
      (if st.charDataQueue.isEmpty then st.charDataTimeout else false) := by
  unfold drainQueue; split <;> simp_all

theorem drainQueue_fields (st : ObsState) :
    (drainQueue st).observing = st.observing
    ∧ (drainQueue st).charListening = st.charListening
    ∧ (drainQueue st).selListening = st.selListening
    ∧ (drainQueue st).focusListeners = st.focusListeners
    ∧ (drainQueue st).intersectionTargets = st.intersectionTargets
    ∧ (drainQueue st).observerBuffer = st.observerBuffer := by
  unfold drainQueue; split <;> simp_all

theorem markDirtyFor_fields (env : Env) (st : ObsState) (recs : List MutationRecord) :
    (markDirtyFor env st recs).active = st.active
    ∧ (markDirtyFor env st recs).observing = st.observing
    ∧ (markDirtyFor env st recs).charListening = st.charListening
    ∧ (markDirtyFor env st recs).charDataQueue = st.charDataQueue
    ∧ (markDirtyFor env st recs).charDataTimeout = st.charDataTimeout
    ∧ (markDirtyFor env st recs).selListening = st.selListening
    ∧ (markDirtyFor env st recs).focusListeners = st.focusListeners
    ∧ (markDirtyFor env st recs).intersectionTargets = st.intersectionTargets := by
  unfold markDirtyFor; split <;> simp_all

theorem syncIfDirty_fields (st : ObsState) :
    (syncIfDirty st).1.active = st.active
    ∧ (syncIfDirty st).1.observing = st.observing
    ∧ (syncIfDirty st).1.charListening = st.charListening
    ∧ (syncIfDirty st).1.charDataQueue = st.charDataQueue
    ∧ (syncIfDirty st).1.charDataTimeout = st.charDataTimeout
    ∧ (syncIfDirty st).1.selListening = st.selListening
    ∧ (syncIfDirty st).1.focusListeners = st.focusListeners
    ∧ (syncIfDirty st).1.intersectionTargets = st.intersectionTargets := by
  unfold syncIfDirty; split <;> simp_all

theorem syncIfDirty_countP_dom (st : ObsState) :
    (syncIfDirty st).2.countP isDOMChange = 0 := by
  unfold syncIfDirty; split <;> simp [isDOMChange]

theorem syncIfDirty_countP_sel (st : ObsState) :
    (syncIfDirty st).2.countP isSelChange = 0 := by
  unfold syncIfDirty; split <;> simp [isSelChange]

theorem applyMutations_eq (env : Env) (st : ObsState) (records : List MutationRecord) :
    applyMutations env st records =
      if (combinedRecords st records).isEmpty then (drainQueue st, false, [])
      else
        ((syncIfDirty (markDirtyFor env (drainQueue st) (combinedRecords st records))).1,
         decide (-1 < (mergedOf env (combinedRecords st records)).1)
           && (markDirtyFor env (drainQueue st) (combinedRecords st records)).active,
         (if decide (-1 < (mergedOf env (combinedRecords st records)).1)
               && (markDirtyFor env (drainQueue st) (combinedRecords st records)).active
          then [Event.domChange (mergedOf env (combinedRecords st records)).1
                  (mergedOf env (combinedRecords st records)).2]
          else [])
           ++ (syncIfDirty (markDirtyFor env (drainQueue st) (combinedRecords st records))).2) :=
  rfl

theorem applyMutations_applied (env : Env) (st : ObsState) (records : List MutationRecord) :
    (applyMutations env st records).2.1 =
      (!(combinedRecords st records).isEmpty
        && (decide (-1 < (mergedOf env (combinedRecords st records)).1) && st.active)) := by
  rw [applyMutations_eq]
  split
  · next h => simp [h]
  · next h =>
    simp [h, (markDirtyFor_fields env (drainQueue st) (combinedRecords st records)).1,
          drainQueue_active]

theorem applyMutations_countP_dom (env : Env) (st : ObsState) (records : List MutationRecord) :
    (applyMutations env st records).2.2.countP isDOMChange =
      (if (applyMutations env st records).2.1 then 1 else 0) := by
  rw [applyMutations_eq]
  split
  · simp
  · simp only [List.countP_append, syncIfDirty_countP_dom]
    cases h2 : (decide (-1 < (mergedOf env (combinedRecords st records)).1)
        && (markDirtyFor env (drainQueue st) (combinedRecords st records)).active) <;>
      simp [h2, isDOMChange]

theorem applyMutations_countP_sel (env : Env) (st : ObsState) (records : List MutationRecord) :
    (applyMutations env st records).2.2.countP isSelChange = 0 := by
  rw [applyMutations_eq]
  split
  · simp
  · simp only [List.countP_append, syncIfDirty_countP_sel]
    cases h2 : (decide (-1 < (mergedOf env (combinedRecords st records)).1)
        && (markDirtyFor env (drainQueue st) (combinedRecords st records)).active) <;>
      simp [h2, isSelChange]

theorem applyMutations_charDataQueue (env : Env) (st : ObsState) (records : List MutationRecord) :
    (applyMutations env st records).1.charDataQueue = [] := by
  rw [applyMutations_eq]
  split
  · exact drainQueue_charDataQueue st
  · rw [(syncIfDirty_fields _).2.2.2.1,
        (markDirtyFor_fields env (drainQueue st) (combinedRecords st records)).2.2.2.1]
    exact drainQueue_charDataQueue st

theorem applyMutations_charDataTimeout (env : Env) (st : ObsState) (records : List MutationRecord) :
    (applyMutations env st records).1.charDataTimeout = (drainQueue st).charDataTimeout := by
  rw [applyMutations_eq]
  split
  · rfl
  · rw [(syncIfDirty_fields _).2.2.2.2.1,
        (markDirtyFor_fields env (drainQueue st) (combinedRecords st records)).2.2.2.2.1]

theorem applyMutations_fields (env : Env) (st : ObsState) (records : List MutationRecord) :
    (applyMutations env st records).1.active = st.active
    ∧ (applyMutations env st records).1.observing = st.observing
    ∧ (applyMutations env st records).1.charListening = st.charListening
    ∧ (applyMutations env st records).1.selListening = st.selListening
    ∧ (applyMutations env st records).1.focusListeners = st.focusListeners
    ∧ (applyMutations env st records).1.intersectionTargets = st.intersectionTargets := by
  rw [applyMutations_eq]
  split
  · exact ⟨drainQueue_active st, (drainQueue_fields st).1, (drainQueue_fields st).2.1,
      (drainQueue_fields st).2.2.1, (drainQueue_fields st).2.2.2.1, (drainQueue_fields st).2.2.2.2.1⟩
  · refine ⟨?_, ?_, ?_, ?_, ?_, ?_⟩ <;>
      simp [syncIfDirty_fields, markDirtyFor_fields, drainQueue_active, drainQueue_fields,
        (syncIfDirty_fields _).1, (syncIfDirty_fields _).2.1,
        (markDirtyFor_fields env (drainQueue st) (combinedRecords st records)).1]

theorem flush_eq (env : Env) (st : ObsState) :
    flush env st =
      (if env.hasObserver
       then applyMutations env { st with observerBuffer := [] } st.observerBuffer
       else applyMutations env st []) :=
  rfl

theorem flush_active (env : Env) (st : ObsState) : (flush env st).1.active = st.active := by
  rw [flush_eq]; split <;> exact (applyMutations_fields _ _ _).1

theorem flush_applied_inactive (env : Env) (st : ObsState) (h : st.active = false) :
    (flush env st).2.1 = false := by
  rw [flush_eq]; split <;> rw [applyMutations_applied] <;> simp [h]

theorem flush_countP_dom (env : Env) (st : ObsState) :
    (flush env st).2.2.countP isDOMChange = (if (flush env st).2.1 then 1 else 0) := by
  rw [flush_eq]; split <;> exact applyMutations_countP_dom _ _ _

theorem flush_countP_sel (env : Env) (st : ObsState) :
    (flush env st).2.2.countP isSelChange = 0 := by
  rw [flush_eq]; split <;> exact applyMutations_countP_sel _ _ _

theorem flush_charDataQueue (env : Env) (st : ObsState) :
    (flush env st).1.charDataQueue = [] := by
  rw [flush_eq]; split <;> exact applyMutations_charDataQueue _ _ _

theorem flush_charDataTimeout (env : Env) (st : ObsState) :
    (flush env st).1.charDataTimeout = (drainQueue st).charDataTimeout := by
  rw [flush_eq]
  split
  · rw [applyMutations_charDataTimeout]
    unfold drainQueue
    split <;> rfl
  · exact applyMutations_charDataTimeout _ _ _

theorem flush_fields (env : Env) (st : ObsState) :
    (flush env st).1.observing = st.observing
    ∧ (flush env st).1.charListening = st.charListening
    ∧ (flush env st).1.selListening = st.selListening
    ∧ (flush env st).1.focusListeners = st.focusListeners
    ∧ (flush env st).1.intersectionTargets = st.intersectionTargets := by
  rw [flush_eq]
  split <;>
    exact ⟨(applyMutations_fields _ _ _).2.1, (applyMutations_fields _ _ _).2.2.1,
      (applyMutations_fields _ _ _).2.2.2.1, (applyMutations_fields _ _ _).2.2.2.2.1,
      (applyMutations_fields _ _ _).2.2.2.2.2⟩

theorem drainQueue_timeout_false (st : ObsState)
    (hqt : st.charDataTimeout = true → st.charDataQueue ≠ []) :
    (drainQueue st).charDataTimeout = false := by
  unfold drainQueue
  split
  · next h =>
    cases hc : st.charDataTimeout
    · rfl
    · exact absurd (List.isEmpty_iff.mp h) (hqt hc)
  · rfl

theorem start_active (env : Env) (st : ObsState) : (start env st).active = true := by
  unfold start
  split
  · assumption
  · rfl

/-- Shared drain-on-stop lemma: what `stop()` does from an active state on a
platform with a mutation observer. -/
theorem stop_drain (env : Env) (st : ObsState) (ha : st.active = true)
    (ho : env.hasObserver = true)
    (hqt : st.charDataTimeout = true → st.charDataQueue ≠ []) :
    (stop env st).1.active = false
    ∧ (stop env st).1.charDataQueue = []
    ∧ (stop env st).1.charDataTimeout = false
    ∧ (stop env st).1.observing = false
    ∧ (stop env st).1.charListening = (if env.useCharData then false else st.charListening)
    ∧ (stop env st).1.selListening = st.selListening
    ∧ (stop env st).1.focusListeners = st.focusListeners
    ∧ (stop env st).1.intersectionTargets = st.intersectionTargets
    ∧ (stop env st).2.countP isDOMChange = 0 := by
  have happ : (flush env { st with active := false }).2.1 = false :=
    flush_applied_inactive _ _ rfl
  have hqt1 : ({ st with active := false } : ObsState).charDataTimeout = true →
      ({ st with active := false } : ObsState).charDataQueue ≠ [] := hqt
  cases hu : env.useCharData <;>
    simp [stop, ha, ho, hu, flush_active, flush_charDataQueue,
      flush_charDataTimeout, drainQueue_timeout_false _ hqt1, flush_fields,
      flush_countP_dom, happ]

theorem mergeStep_of_nonneg (a b : Int) (r : DirtyRange) (ha : 0 ≤ a) :
    mergeStep (a, b) r = (min r.from_ a, max r.to_ b) := by
  unfold mergeStep
  have h : ¬(a = -1) := by omega
  simp [h]

theorem mergeFold (t : List DirtyRange) (a b : Int) (ha : 0 ≤ a)
    (h0 : ∀ r ∈ t, 0 ≤ r.from_) :
    t.foldl mergeStep (a, b) =
      (t.foldl (fun x r => min r.from_ x) a, t.foldl (fun x r => max r.to_ x) b) := by
  induction t generalizing a b with
  | nil => rfl
  | cons r t ih =>
    simp only [List.foldl_cons]
    rw [mergeStep_of_nonneg a b r ha]
    exact ih (min r.from_ a) (max r.to_ b)
      (le_min (h0 r (by simp)) ha)
      (fun x hx => h0 x (by simp [hx]))

theorem foldlMin_bounds (t : List DirtyRange) (a : Int) :
    t.foldl (fun x r => min r.from_ x) a ≤ a
    ∧ (∀ r ∈ t, t.foldl (fun x r => min r.from_ x) a ≤ r.from_)
    ∧ (t.foldl (fun x r => min r.from_ x) a = a
       ∨ ∃ r ∈ t, t.foldl (fun x r => min r.from_ x) a = r.from_) := by
  induction t generalizing a with
  | nil => simp
  | cons r t ih =>
    obtain ⟨h1, h2, h3⟩ := ih (min r.from_ a)
    simp only [List.foldl_cons]
    refine ⟨h1.trans (min_le_right _ _), ?_, ?_⟩
    · intro x hx
      rcases List.mem_cons.mp hx with hx | hx
      · subst hx; exact h1.trans (min_le_left _ _)
      · exact h2 x hx
    · rcases h3 with h3 | ⟨x, hx, hxe⟩
      · rcases min_cases r.from_ a with ⟨he, _⟩ | ⟨he, _⟩
        · exact Or.inr ⟨r, by simp, h3.trans he⟩
        · exact Or.inl (h3.trans he)
      · exact Or.inr ⟨x, by simp [hx], hxe⟩

theorem foldlMax_bounds (t : List DirtyRange) (b : Int) :
    b ≤ t.foldl (fun x r => max r.to_ x) b
    ∧ (∀ r ∈ t, r.to_ ≤ t.foldl (fun x r => max r.to_ x) b)
    ∧ (t.foldl (fun x r => max r.to_ x) b = b
       ∨ ∃ r ∈ t, t.foldl (fun x r => max r.to_ x) b = r.to_) := by
  induction t generalizing b with
  | nil => simp
  | cons r t ih =>
    obtain ⟨h1, h2, h3⟩ := ih (max r.to_ b)
    simp only [List.foldl_cons]
    refine ⟨(le_max_right _ _).trans h1, ?_, ?_⟩
    · intro x hx
      rcases List.mem_cons.mp hx with hx | hx
      · subst hx; exact (le_max_left _ _).trans h1
      · exact h2 x hx
    · rcases h3 with h3 | ⟨x, hx, hxe⟩
      · rcases max_cases r.to_ b with ⟨he, _⟩ | ⟨he, _⟩
        · exact Or.inr ⟨r, by simp, h3.trans he⟩
        · exact Or.inl (h3.trans he)
      · exact Or.inr ⟨x, by simp [hx], hxe⟩

theorem mergeRanges_cons (r : DirtyRange) (t : List DirtyRange)
    (h0 : ∀ x ∈ r :: t, 0 ≤ x.from_) :
    mergeRanges (r :: t) =
      (t.foldl (fun x y => min y.from_ x) r.from_,
       t.foldl (fun x y => max y.to_ x) r.to_) := by
  unfold mergeRanges
  simp only [List.foldl_cons]
  rw [show mergeStep (-1, -1) r = (r.from_, r.to_) by unfold mergeStep; simp]
  exact mergeFold t r.from_ r.to_ (h0 r (by simp)) (fun x hx => h0 x (by simp [hx]))

theorem mergeRanges_bounds (r : DirtyRange) (t : List DirtyRange)
    (h0 : ∀ x ∈ r :: t, 0 ≤ x.from_) :
    (∀ x ∈ r :: t,
      (mergeRanges (r :: t)).1 ≤ x.from_ ∧ x.to_ ≤ (mergeRanges (r :: t)).2)
    ∧ (∃ x ∈ r :: t, x.from_ = (mergeRanges (r :: t)).1)
    ∧ (∃ x ∈ r :: t, x.to_ = (mergeRanges (r :: t)).2) := by
  rw [mergeRanges_cons r t h0]
  obtain ⟨hf1, hf2, hf3⟩ := foldlMin_bounds t r.from_
  obtain ⟨ht1, ht2, ht3⟩ := foldlMax_bounds t r.to_
  refine ⟨?_, ?_, ?_⟩
  · intro x hx
    rcases List.mem_cons.mp hx with hx | hx
    · subst hx; exact ⟨hf1, ht1⟩
    · exact ⟨hf2 x hx, ht2 x hx⟩
  · rcases hf3 with h | ⟨x, hx, he⟩
    · exact ⟨r, by simp, h.symm⟩
    · exact ⟨x, by simp [hx], he.symm⟩
  · rcases ht3 with h | ⟨x, hx, he⟩
    · exact ⟨r, by simp, h.symm⟩
    · exact ⟨x, by simp [hx], he.symm⟩

theorem mergeRanges_perm (rs rt : List DirtyRange) (hne : rs ≠ [])
    (h0 : ∀ x ∈ rs, 0 ≤ x.from_) (hp : rs.Perm rt) :
    mergeRanges rs = mergeRanges rt := by
  obtain ⟨r, t, rfl⟩ : ∃ r t, rs = r :: t := by
    cases rs with
    | nil => exact absurd rfl hne
    | cons r t => exact ⟨r, t, rfl⟩
  obtain ⟨r2, t2, rfl⟩ : ∃ r2 t2, rt = r2 :: t2 := by
    cases rt with
    | nil => have := hp.length_eq; simp at this
    | cons r2 t2 => exact ⟨r2, t2, rfl⟩
  have h02 : ∀ x ∈ r2 :: t2, 0 ≤ x.from_ := fun x hx => h0 x (hp.mem_iff.mpr hx)
  obtain ⟨bd1, ⟨xf, hxf, hxfe⟩, ⟨xt, hxt, hxte⟩⟩ := mergeRanges_bounds r t h0
  obtain ⟨bd2, ⟨yf, hyf, hyfe⟩, ⟨yt, hyt, hyte⟩⟩ := mergeRanges_bounds r2 t2 h02
  have e1 : (mergeRanges (r :: t)).1 = (mergeRanges (r2 :: t2)).1 := by
    have l1 : (mergeRanges (r :: t)).1 ≤ (mergeRanges (r2 :: t2)).1 :=
      hyfe ▸ (bd1 yf (hp.mem_iff.mpr hyf)).1
    have l2 : (mergeRanges (r2 :: t2)).1 ≤ (mergeRanges (r :: t)).1 :=
      hxfe ▸ (bd2 xf (hp.mem_iff.mp hxf)).1
    exact le_antisymm l1 l2
  have e2 : (mergeRanges (r :: t)).2 = (mergeRanges (r2 :: t2)).2 := by
    have l1 : (mergeRanges (r :: t)).2 ≤ (mergeRanges (r2 :: t2)).2 :=
      hxte ▸ (bd2 xt (hp.mem_iff.mp hxt)).2
    have l2 : (mergeRanges (r2 :: t2)).2 ≤ (mergeRanges (r :: t)).2 :=
      hyte ▸ (bd1 yt (hp.mem_iff.mpr hyt)).2
    exact le_antisymm l1 l2
  exact Prod.ext_iff.mpr ⟨e1, e2⟩

/-! ## Claim theorems -/

/-- C1 (counterexample): the claim says `stop()` while active delivers
exactly one `onDOMChange` invocation covering the pending records.  In this
concrete state the observer is active with one pending record whose target
resolves to a tracked descriptor, yet `stop()` invokes `onDOMChange` zero
times: `stop()` sets `active = false` *before* its `flush()`, and
`applyMutations` gates the callback on `this.active` (the source's FIXME
comment acknowledges it is throwing these events away). -/
theorem stop_no_notification_cex :
    stStopDemo.active = true
    ∧ stStopDemo.observerBuffer.length = 1
    ∧ (readMutation envStopDemo recStopDemo).isSome = true
    ∧ (stop envStopDemo stStopDemo).2.countP isDOMChange = 0 := by
  decide

/-- C1 (amended): calling `stop()` while active on a platform with a
mutation observer drains the pending state — afterwards the observer is
inactive, the legacy char-data queue is empty and its debounce timer is
canceled — but it delivers zero `onDOMChange` invocations, because `active`
is cleared before the drain runs. -/
theorem stop_drains_without_notifying (env : Env) (st : ObsState)
    (ha : st.active = true) (ho : env.hasObserver = true)
    (hqt : st.charDataTimeout = true → st.charDataQueue ≠ []) :
    (stop env st).1.active = false
    ∧ (stop env st).1.charDataQueue = []
    ∧ (stop env st).1.charDataTimeout = false
    ∧ (stop env st).2.countP isDOMChange = 0 := by
  obtain ⟨h1, h2, h3, _, _, _, _, _, h9⟩ := stop_drain env st ha ho hqt
  exact ⟨h1, h2, h3, h9⟩

/-- C1 witness: the amended statement at the concrete drain-on-stop state. -/
theorem stop_drains_without_notifying_witness :
    (stop envStopDemo stStopDemo).1.active = false
    ∧ (stop envStopDemo stStopDemo).1.charDataQueue = []
    ∧ (stop envStopDemo stStopDemo).1.charDataTimeout = false
    ∧ (stop envStopDemo stStopDemo).2.countP isDOMChange = 0 :=
  stop_drains_without_notifying envStopDemo stStopDemo rfl rfl (by decide)

/-- C2: while the observer is inactive, no processing of mutation records —
via `applyMutations` (which is also the body of the platform observer
callback) or via `flush()` — ever invokes `onDOMChange`, for every record
list. -/
theorem inactive_never_notifies (env : Env) (st : ObsState)
    (records : List MutationRecord) (h : st.active = false) :
    (applyMutations env st records).2.1 = false
    ∧ (applyMutations env st records).2.2.countP isDOMChange = 0
    ∧ (flush env st).2.1 = false
    ∧ (flush env st).2.2.countP isDOMChange = 0 := by
  have h1 : (applyMutations env st records).2.1 = false := by
    rw [applyMutations_applied]; simp [h]
  have h3 := flush_applied_inactive env st h
  refine ⟨h1, ?_, h3, ?_⟩
  · simp [applyMutations_countP_dom, h1]
  · simp [flush_countP_dom, h3]

/-- C2 witness: an inactive observer holding a pending record that would
resolve to a range; neither `applyMutations` nor `flush` notifies. -/
theorem inactive_never_notifies_witness :
    (applyMutations envStopDemo stPausedDemo [recStopDemo]).2.1 = false
    ∧ (applyMutations envStopDemo stPausedDemo [recStopDemo]).2.2.countP isDOMChange = 0
    ∧ (flush envStopDemo stPausedDemo).2.1 = false
    ∧ (flush envStopDemo stPausedDemo).2.2.countP isDOMChange = 0 :=
  inactive_never_notifies envStopDemo stPausedDemo [recStopDemo] rfl

/-- C3: on a selection-change event with the controller active, the root
focused and a selection present, `flush()` runs first, `onSelectionChange`
fires iff `flush()` returned false, and in total exactly one of
`onDOMChange` / `onSelectionChange` fires — never both, never neither. -/
theorem readSelection_exclusive (env : Env) (st : ObsState)
    (ha : st.active = true) (hr : env.rootActiveElement = true)
    (hs : env.hasSelection = true) :
    ((readSelection env st).2.countP isSelChange
        = if (flush env st).2.1 then 0 else 1)
    ∧ (readSelection env st).2.countP isDOMChange
        + (readSelection env st).2.countP isSelChange = 1 := by
  cases hfl : (flush env st).2.1 <;>
    simp [readSelection, ha, hr, hs, hfl, flush_countP_sel, flush_countP_dom,
      List.countP_append, List.countP_cons, isSelChange, isDOMChange]

/-- C3 witness: a selection-change on an active, focused root with nothing
pending: `flush()` returns false and exactly the selection callback fires. -/
theorem readSelection_exclusive_witness :
    ((readSelection envSelDemo stSelDemo).2.countP isSelChange
        = if (flush envSelDemo stSelDemo).2.1 then 0 else 1)
    ∧ (readSelection envSelDemo stSelDemo).2.countP isDOMChange
        + (readSelection envSelDemo stSelDemo).2.countP isSelChange = 1 :=
  readSelection_exclusive envSelDemo stSelDemo rfl rfl rfl

/-- C4: for every non-empty list of resolved dirty ranges with non-negative
(document-coordinate) starts, the merged range is the attained greatest
lower bound of the starts and least upper bound of the ends — i.e.
`(min of all from, max of all to)` — and is invariant under permutation of
the input; the empty input keeps the sentinel `(-1, -1)`, and a flush whose
records produce no ranges applies no notification. -/
theorem mergeRanges_min_max_perm (r : DirtyRange) (t rt : List DirtyRange)
    (h0 : ∀ x ∈ r :: t, 0 ≤ x.from_) (hp : (r :: t).Perm rt) :
    (∀ x ∈ r :: t,
      (mergeRanges (r :: t)).1 ≤ x.from_ ∧ x.to_ ≤ (mergeRanges (r :: t)).2)
    ∧ (∃ x ∈ r :: t, x.from_ = (mergeRanges (r :: t)).1)
    ∧ (∃ x ∈ r :: t, x.to_ = (mergeRanges (r :: t)).2)
    ∧ mergeRanges (r :: t) = mergeRanges rt
    ∧ mergeRanges ([] : List DirtyRange) = (-1, -1)
    ∧ (∀ (env : Env) (st : ObsState) (records : List MutationRecord),
        (combinedRecords st records).filterMap (readMutation env) = [] →
        (applyMutations env st records).2.1 = false) := by
  obtain ⟨b1, b2, b3⟩ := mergeRanges_bounds r t h0
  refine ⟨b1, b2, b3, mergeRanges_perm _ _ (by simp) h0 hp, rfl, ?_⟩
  intro env st records hnil
  rw [applyMutations_applied]
  unfold mergedOf
  rw [hnil]
  simp [mergeRanges]

/-- C4 witness: merging two concrete ranges in either order yields
`(min of froms, max of tos)`. -/
theorem mergeRanges_min_max_perm_witness :
    mergeRanges [(⟨3, 4⟩ : DirtyRange), ⟨1, 9⟩]
        = mergeRanges [(⟨1, 9⟩ : DirtyRange), ⟨3, 4⟩]
    ∧ mergeRanges [(⟨3, 4⟩ : DirtyRange), ⟨1, 9⟩] = (1, 9) :=
  ⟨(mergeRanges_min_max_perm ⟨3, 4⟩ [⟨1, 9⟩] [⟨1, 9⟩, ⟨3, 4⟩]
      (by decide) (by decide)).2.2.2.1,
   by decide⟩

/-- C5: `withoutListening(action)` always calls `start()` after the action,
even when the action raises: afterwards the controller is active again, and
the action's exception (if any) propagates unchanged to the caller. -/
theorem withoutListening_restarts {ε : Type} (env : Env)
    (f : ObsState → ObsState × Option ε) (st : ObsState) :
    (withoutListening env f st).1.active = true
    ∧ (withoutListening env f st).2.2 = (f (stop env st).1).2 :=
  ⟨start_active env _, rfl⟩

/-- C6: whenever a flush consumes a non-empty legacy char-data queue, in the
same `applyMutations` step the debounce timer is canceled, the queue is
emptied, and the processed batch is exactly `records ++ queue`, so each
queued record is processed exactly once (counts add). -/
theorem flush_drains_charDataQueue (env : Env) (st : ObsState)
    (records : List MutationRecord) (h : st.charDataQueue ≠ []) :
    (applyMutations env st records).1.charDataQueue = []
    ∧ (applyMutations env st records).1.charDataTimeout = false
    ∧ combinedRecords st records = records ++ st.charDataQueue
    ∧ ∀ r : MutationRecord,
        (combinedRecords st records).count r
          = records.count r + st.charDataQueue.count r := by
  have hne : st.charDataQueue.isEmpty = false := by
    cases hq : st.charDataQueue.isEmpty
    · rfl
    · exact absurd (List.isEmpty_iff.mp hq) h
  have hcomb : combinedRecords st records = records ++ st.charDataQueue := by
    unfold combinedRecords; rw [hne]; rfl
  refine ⟨applyMutations_charDataQueue env st records, ?_, hcomb, ?_⟩
  · rw [applyMutations_charDataTimeout]
    unfold drainQueue
    rw [hne]
    rfl
  · intro r
    rw [hcomb, List.count_append]

/-- C6 witness: a non-empty queue with armed timer is consumed: queue
emptied, timer canceled, and the queued record counted exactly once in the
processed batch. -/
theorem flush_drains_charDataQueue_witness :
    (applyMutations trivEnv stQueueDemo []).1.charDataQueue = []
    ∧ (applyMutations trivEnv stQueueDemo []).1.charDataTimeout = false
    ∧ (combinedRecords stQueueDemo []).count recQueueDemo
        = ([] : List MutationRecord).count recQueueDemo
          + stQueueDemo.charDataQueue.count recQueueDemo := by
  obtain ⟨h1, h2, _, h4⟩ := flush_drains_charDataQueue trivEnv stQueueDemo [] (by decide)
  exact ⟨h1, h2, h4 recQueueDemo⟩

/-- C7: for a structural (`childList`) record whose target resolves to a
tracked descriptor, `readMutation` returns a range whose start is
`posAfter(childBefore)` when `findChild` locates a tracked child before the
mutation and the descriptor's start position otherwise, and whose end is
`posBefore(childAfter)` when a tracked child after exists and the
descriptor's end position otherwise. -/
theorem readMutation_childList_range (env : Env) (record : MutationRecord)
    (desc : Nat) (hn : env.nearest record.target = some desc)
    (ht : record.type = MType.childList) :
    ∃ rg : DirtyRange, readMutation env record = some rg
      ∧ (∀ cb, findChild env desc
            (record.previousSibling.orElse fun _ => env.previousSibling record.target)
            (-1) env.fuel = some cb → rg.from_ = env.posAfter desc cb)
      ∧ (findChild env desc
            (record.previousSibling.orElse fun _ => env.previousSibling record.target)
            (-1) env.fuel = none → rg.from_ = env.posAtStart desc)
      ∧ (∀ ca, findChild env desc
            (record.nextSibling.orElse fun _ => env.nextSibling record.target)
            1 env.fuel = some ca → rg.to_ = env.posBefore desc ca)
      ∧ (findChild env desc
            (record.nextSibling.orElse fun _ => env.nextSibling record.target)
            1 env.fuel = none → rg.to_ = env.posAtEnd desc) := by
  unfold readMutation
  rw [hn, ht]
  refine ⟨_, rfl, ?_, ?_, ?_, ?_⟩
  · intro cb hcb; simp [hcb]
  · intro hcb; simp [hcb]
  · intro ca hca; simp [hca]
  · intro hca; simp [hca]

/-- C7 witness: the `[A,B,C]` scenario — children at `[0,5)`, `[5,9)`,
`[9,14)`, removal between A and B with `previousSibling = A.dom`,
`nextSibling = B.dom` — resolves to the empty point range `(5, 5)`. -/
theorem readMutation_childList_range_witness :
    readMutation envABC recABC = some (⟨5, 5⟩ : DirtyRange) := by
  obtain ⟨rg, hrg, h1, _, h3, _⟩ :=
    readMutation_childList_range envABC recABC 0 (by decide) rfl
  have hcb : findChild envABC 0
      (recABC.previousSibling.orElse fun _ => envABC.previousSibling recABC.target)
      (-1) envABC.fuel = some 1 := by decide
  have hca : findChild envABC 0
      (recABC.nextSibling.orElse fun _ => envABC.nextSibling recABC.target)
      1 envABC.fuel = some 2 := by decide
  have hrg5 : rg = (⟨5, 5⟩ : DirtyRange) := by
    have hrf : rg.from_ = 5 := by rw [h1 1 hcb]; decide
    have hrt : rg.to_ = 5 := by rw [h3 2 hca]; decide
    cases rg
    simp_all
  rw [hrg, hrg5]

/-- C8 (counterexample): the claim says `destroy()` tears down every
registration so no callback of the engine can fire again.  In this concrete
active state, after `destroy()` the focus/blur listeners are still attached
and the intersection observer still observes element 5 — and a subsequent
focus event re-registers the selection-change listener, so the engine's
callbacks can fire again. -/
theorem destroy_incomplete_teardown_cex :
    (destroy envDestroyDemo stDestroyDemo).1.focusListeners = true
    ∧ (destroy envDestroyDemo stDestroyDemo).1.intersectionTargets = [5]
    ∧ (onFocus envDestroyDemo
        (destroy envDestroyDemo stDestroyDemo).1).1.selListening = true := by
  decide

/-- C8 (amended): `destroy()` stops observation (unregistering the mutation
observer and — when the platform uses it — the legacy char-data listener,
draining the queue and canceling its timer) and removes the
selection-change listener; but it does not remove the focus/blur listeners
and does not disconnect the intersection observer. -/
theorem destroy_stops_and_unlistens_selection (env : Env) (st : ObsState)
    (ha : st.active = true) (ho : env.hasObserver = true)
    (hqt : st.charDataTimeout = true → st.charDataQueue ≠ [])
    (hc : st.charListening = true → env.useCharData = true) :
    (destroy env st).1.active = false
    ∧ (destroy env st).1.observing = false
    ∧ (destroy env st).1.charListening = false
    ∧ (destroy env st).1.selListening = false
    ∧ (destroy env st).1.charDataQueue = []
    ∧ (destroy env st).1.charDataTimeout = false
    ∧ (destroy env st).1.focusListeners = st.focusListeners
    ∧ (destroy env st).1.intersectionTargets = st.intersectionTargets := by
  obtain ⟨h1, h2, h3, h4, h5, _, h7, h8, _⟩ := stop_drain env st ha ho hqt
  have hchar : (stop env st).1.charListening = false := by
    cases hu : env.useCharData
    · rw [h5, hu]
      simp only [Bool.false_eq_true, if_false]
      cases hcl : st.charListening
      · rfl
      · exact absurd (hc hcl) (by rw [hu]; simp)
    · rw [h5, hu]; simp
  unfold destroy
  exact ⟨h1, h4, hchar, rfl, h2, h3, h7, h8⟩

/-- C8 witness: the amended statement at the concrete destroy state. -/
theorem destroy_stops_and_unlistens_selection_witness :
    (destroy envDestroyDemo stDestroyDemo).1.active = false
    ∧ (destroy envDestroyDemo stDestroyDemo).1.observing = false
    ∧ (destroy envDestroyDemo stDestroyDemo).1.charListening = false
    ∧ (destroy envDestroyDemo stDestroyDemo).1.selListening = false
    ∧ (destroy envDestroyDemo stDestroyDemo).1.charDataQueue = []
    ∧ (destroy envDestroyDemo stDestroyDemo).1.charDataTimeout = false
    ∧ (destroy envDestroyDemo stDestroyDemo).1.focusListeners
        = stDestroyDemo.focusListeners
    ∧ (destroy envDestroyDemo stDestroyDemo).1.intersectionTargets
        = stDestroyDemo.intersectionTargets :=
  destroy_stops_and_unlistens_selection envDestroyDemo stDestroyDemo rfl rfl
    (by decide) (by decide)

/-- C10: the constructor itself calls `start()`: immediately after
construction the observer is active, the mutation observer and (when
applicable) the legacy listener are registered, and a non-empty batch of
records delivered right away is forwarded to `onDOMChange` exactly when it
merges to a resolved range. -/
theorem constructor_starts_active (env : Env) :
    (newObserver env).active = true
    ∧ (newObserver env).observing = env.hasObserver
    ∧ (newObserver env).charListening = env.useCharData
    ∧ (newObserver env).charDataQueue = []
    ∧ ∀ records, records ≠ [] →
        (applyMutations env (newObserver env) records).2.1
          = decide (-1 < (mergedOf env records).1) := by
  have hact : (newObserver env).active = true := start_active env initialState
  have hq : (newObserver env).charDataQueue = [] := by
    cases ho : env.hasObserver <;> cases hu : env.useCharData <;>
      simp [newObserver, start, initialState, ho, hu]
  have hobs : (newObserver env).observing = env.hasObserver := by
    cases ho : env.hasObserver <;> cases hu : env.useCharData <;>
      simp [newObserver, start, initialState, ho, hu]
  have hch : (newObserver env).charListening = env.useCharData := by
    cases ho : env.hasObserver <;> cases hu : env.useCharData <;>
      simp [newObserver, start, initialState, ho, hu]
  refine ⟨hact, hobs, hch, hq, ?_⟩
  intro records hne
  have hcomb : combinedRecords (newObserver env) records = records := by
    unfold combinedRecords; rw [hq]; rfl
  rw [applyMutations_applied, hcomb, hact]
  cases hre : records.isEmpty
  · simp
  · exact absurd (List.isEmpty_iff.mp hre) hne

/-- C10 witness: a freshly constructed observer is active and forwards a
record arriving right after construction. -/
theorem constructor_starts_active_witness :
    (newObserver envCtorDemo).active = true
    ∧ (applyMutations envCtorDemo (newObserver envCtorDemo) [recCtorDemo]).2.1
        = true := by
  obtain ⟨h1, _, _, _, h5⟩ := constructor_starts_active envCtorDemo
  refine ⟨h1, ?_⟩
  rw [h5 [recCtorDemo] (by decide)]
  decide

end DOMObs

namespace KeyDispatch

/-- C9 (counterexample): the claim says malformed key-binding syntax is
rejected eagerly at setup time, never deferred to the first keystroke.  For
the concrete binding `"Q-x"` (unrecognized modifier `Q-`), configuring the
editor succeeds and computes nothing (the keymap cache is empty), and the
descriptive error is raised only when the keymap is first compiled — which
`getKeymap` does on the first key event. -/
theorem lazy_validation_cex :
    (setupEditor [badModBinding]).2.cached = none
    ∧ buildKeymap [badModBinding] PlatformName.linux
        = Except.error "Unrecognized modifier name: Q"
    ∧ firstKeyEvent [badModBinding] PlatformName.linux
        = Except.error "Unrecognized modifier name: Q" :=
  ⟨rfl, by decide, by decide⟩

/-- C9 (amended): malformed key-binding syntax (an unrecognized modifier
name, or a key used both as a regular binding and as a multi-stroke prefix)
is rejected with a descriptive error when the keymap is first compiled —
which happens lazily on the first key event, not at setup time: setup
performs no validation and the compilation error surfaces unchanged from
the first key-event dispatch. -/
theorem malformed_binding_error_at_first_compile
    (bindings : List KeyBinding) (platform : PlatformName) (e : String)
    (h : buildKeymap bindings platform = Except.error e) :
    (setupEditor bindings).2.cached = none
    ∧ firstKeyEvent bindings platform = Except.error e := by
  refine ⟨rfl, ?_⟩
  unfold firstKeyEvent getKeymap setupEditor
  simp only []
  rw [h]
  rfl

/-- C9 witness: both malformed kinds — the unrecognized modifier `Q-` and
the `a` / `a b` regular-vs-multi-stroke conflict — produce their descriptive
errors at the first key event after an error-free setup. -/
theorem malformed_binding_error_at_first_compile_witness :
    ((setupEditor [badModBinding]).2.cached = none
      ∧ firstKeyEvent [badModBinding] PlatformName.linux
          = Except.error "Unrecognized modifier name: Q")
    ∧ ((setupEditor conflictBindings).2.cached = none
      ∧ firstKeyEvent conflictBindings PlatformName.linux
          = Except.error
              "Key binding a is used both as a regular binding and as a multi-stroke prefix") :=
  ⟨malformed_binding_error_at_first_compile _ _ _ (by decide),
   malformed_binding_error_at_first_compile _ _ _ (by decide)⟩

end KeyDispatch
